import Mathlib

/-!
Shallow embedding of the toolchain-orchestration core of the
code-lego-spike-python-portal backend
(src/backend/app/routers/compiler.py and src/backend/app/routers/firmware.py).

External effects (the CPython parser invoked by the built-in compile(),
subprocess.run on mpy-cross / pybricksdev, HTTP fetches to the GitHub
release API, and filesystem probes) are passed in as explicit outcome
parameters; the bodies of the endpoint functions are line-by-line
translations of the Python control flow.  Each endpoint additionally
reports two observable effects: whether subprocess.run was reached and
whether a staged temporary file survives the call.

Python string primitives are re-implemented over `List Char` with Python
semantics (substring `in`, `str.lower`, `str.strip`, `str.endswith`,
`str.replace`); case folding and the `\d` character class are modelled for
ASCII, which covers every string the source manipulates.
-/

namespace Portal

/-- Python substring test over char lists: helper for `pat in s`. -/
def listContains (pat : List Char) : List Char → Bool
  | [] => pat.isEmpty
  | c :: cs => pat.isPrefixOf (c :: cs) || listContains pat cs

/-- Python `pat in s` (substring containment). -/
def pyContains (s pat : String) : Bool :=
  listContains pat.data s.data

/-- Python `s.endswith(suffix)`. -/
def pyEndsWith (s sfx : String) : Bool :=
  sfx.data.reverse.isPrefixOf s.data.reverse

/-- Python `s.lower()` (ASCII case folding, the only case the source uses). -/
def pyLower (s : String) : String :=
  ⟨s.data.map Char.toLower⟩

/-- Python `str.strip`'s whitespace set (ASCII). -/
def pyIsSpace (c : Char) : Bool :=
  c = ' ' || c = '\t' || c = '\n' || c = '\r' || c = Char.ofNat 11 || c = Char.ofNat 12

/-- Python `s.strip()`. -/
def pyStrip (s : String) : String :=
  ⟨((s.data.dropWhile pyIsSpace).reverse.dropWhile pyIsSpace).reverse⟩

/-- Python `s.replace(old, new)` over char lists, non-overlapping, left to
right; `old` is the non-empty pattern `p0 :: ps`.  Structural recursion on
a fuel argument: every step strictly shortens the list, so fuel equal to
the list length is always enough. -/
def replaceAll (p0 : Char) (ps rep : List Char) : Nat → List Char → List Char
  | _, [] => []
  | 0, l => l
  | fuel + 1, c :: cs =>
    if (p0 :: ps).isPrefixOf (c :: cs) then
      rep ++ replaceAll p0 ps rep fuel (cs.drop ps.length)
    else c :: replaceAll p0 ps rep fuel cs

/-- Python `s.replace(old, new)`.  The source only calls it with the
non-empty pattern ".py"; the empty-pattern case returns `s` unchanged. -/
def pyReplace (s old new : String) : String :=
  match old.data with
  | [] => s
  | p0 :: ps => ⟨replaceAll p0 ps new.data s.data.length s.data⟩

/-- Python `filename or default` on an optional string (absent and empty
are both falsy). -/
def orDefaultName (value : Option String) (dflt : String) : String :=
  match value with
  | none => dflt
  | some s => if s = "" then dflt else s

/-- Result of one `subprocess.run` call. -/
structure ProcResult where
  returncode : Int
  stdout : String
  stderr : String
deriving Repr, DecidableEq

/-- Outcome of attempting a `subprocess.run` call: it either ran to
completion, raised FileNotFoundError (executable missing), or raised
subprocess.TimeoutExpired (wall-clock bound hit). -/
inductive ProcOutcome
  | ran (r : ProcResult)
  | fileNotFound
  | timedOut
deriving Repr, DecidableEq

/-- fastapi.HTTPException payload. -/
structure HTTPException where
  status_code : Nat
  detail : String
deriving Repr, DecidableEq

/-- How an endpoint call terminates abnormally: a raised HTTPException
(structured), or a raw process exception escaping the handler unhandled. -/
inductive PyError
  | http (e : HTTPException)
  | timeoutExpired
  | fileNotFoundError
deriving Repr, DecidableEq

/-- Observable side effects of one endpoint call: whether `subprocess.run`
was reached (attempted), and whether a staged temporary file still exists
on disk after the call returns. -/
structure Effects where
  procInvoked : Bool
  tempLeaked : Bool
deriving Repr, DecidableEq

/-- True when the result is a raised HTTPException with the given status. -/
def isHttpStatus {α : Type} (r : Except PyError α) (code : Nat) : Bool :=
  match r with
  | .error (.http e) => e.status_code == code
  | _ => false

/-- `output = (result.stdout or "") + ("\n" + result.stderr if result.stderr else "")` -/
def combinedOutput (r : ProcResult) : String :=
  r.stdout ++ (if r.stderr = "" then "" else "\n" ++ r.stderr)

/-- The spec's failure taxonomy for device-flashing classification. -/
inductive DfuFailureCategory
  | DeviceNotFound
  | PrerequisitesMissing
  | PermissionDenied
  | ToolNotInstalled
  | Timeout
  | UnknownFailure
deriving Repr, DecidableEq

/-- Category of a classification HTTPException, keyed by the status codes
the two classifiers emit (400 device, 501 prerequisites, 403 permission,
500 unknown). -/
def dfuCategoryOf (e : HTTPException) : DfuFailureCategory :=
  if e.status_code = 400 then .DeviceNotFound
  else if e.status_code = 501 then .PrerequisitesMissing
  else if e.status_code = 403 then .PermissionDenied
  else .UnknownFailure

/-- firmware.py line 50: detail of the specific no-LEGO-DFU-device rule. -/
def restoreNoLegoDfuDetail : String :=
  "No LEGO DFU USB device found.\nPut SPIKE Prime in DFU mode exactly as follows: unplug USB, power hub OFF, hold the Bluetooth button, plug USB while still holding, keep holding until LED flashes red/green/blue.\nThen click Restore FW again.\nIf still not detected, replug USB and verify device appears with: lsusb | grep 0694"

/-- firmware.py line 60: detail of the missing-prerequisites rule. -/
def restorePrereqDetail : String :=
  "Restore prerequisites are missing (dfu-util/libusb).\nInstall tools on Linux: sudo apt update && sudo apt install -y dfu-util libusb-1.0-0\nPut SPIKE Prime in DFU mode: unplug USB, power OFF, hold Bluetooth button, plug USB, keep holding until LED flashes red/green/blue.\nIf permission is denied, run: pybricksdev udev | sudo tee /etc/udev/rules.d/99-pybricksdev.rules && sudo udevadm control --reload-rules && sudo udevadm trigger"

/-- firmware.py line 71: detail of the generic no-DFU rule. -/
def restoreGenericNoDfuDetail : String :=
  "No DFU device found. Put SPIKE Prime in DFU mode, connect via USB, then try again."

/-- firmware.py line 78: detail of the permission-denied rule. -/
def restorePermissionDetail : String :=
  "USB permission denied. Run: pybricksdev udev | sudo tee /etc/udev/rules.d/99-pybricksdev.rules then reload udev rules and reconnect the hub."

/-- firmware.py lines 46-86: the restore failure classification, the exact
if-chain over the combined output of the failed pybricksdev dfu restore. -/
def classifyRestoreFailure (output : String) : HTTPException :=
  if pyContains output "No LEGO DFU USB device found"
      || pyContains output "RuntimeError: No LEGO DFU USB device found" then
    ⟨400, restoreNoLegoDfuDetail⟩
  else if pyContains output "No working DFU found." || pyContains output "dfu-util" then
    ⟨501, restorePrereqDetail⟩
  else if pyContains output "No DFU" then
    ⟨400, restoreGenericNoDfuDetail⟩
  else if pyContains output "Permission to access USB device denied" then
    ⟨403, restorePermissionDetail⟩
  else
    ⟨500, "pybricksdev restore failed. "
      ++ (if pyStrip output = "" then "Unknown error" else pyStrip output)⟩

/-- Python response model: FirmwareInstallResponse. -/
structure FirmwareInstallResponse where
  success : Bool
  message : String
  output : String := ""
deriving Repr, DecidableEq

/-- firmware.py lines 37-92: `_restore_firmware_bin(bin_path, source_label)`.
The bin path only feeds the subprocess argv, which the `proc` outcome
abstracts. -/
def _restore_firmware_bin (source_label : String) (proc : ProcOutcome) :
    Except PyError FirmwareInstallResponse :=
  match proc with
  | .fileNotFound => .error .fileNotFoundError
  | .timedOut => .error .timeoutExpired
  | .ran r =>
    let output := combinedOutput r
    if r.returncode ≠ 0 then
      .error (.http (classifyRestoreFailure output))
    else
      .ok ⟨true, "Restored LEGO firmware from " ++ source_label, pyStrip output⟩

/-- firmware.py line 108: detail of the flash path's only specific rule. -/
def flashNoDfuDetail : String :=
  "No DFU device found. For LEGO SPIKE Prime (PrimeHub): 1) Unplug USB. 2) Turn hub OFF. 3) Press and hold the Bluetooth button. 4) While holding it, plug in USB. 5) Keep holding until Bluetooth LED flashes red/green/blue. Then click Install FW again."

/-- firmware.py lines 104-118: the flash (install) failure classification:
one specific rule, then the generic fallback. -/
def classifyFlashFailure (output : String) : HTTPException :=
  if pyContains output "No DFU devices found." then
    ⟨400, flashNoDfuDetail⟩
  else
    ⟨500, "pybricksdev flash failed. "
      ++ (if pyStrip output = "" then "Unknown error" else pyStrip output)⟩

/-- firmware.py lines 95-120: `_flash_firmware_zip(zip_path)`; on success it
returns the stripped combined output. -/
def _flash_firmware_zip (proc : ProcOutcome) : Except PyError String :=
  match proc with
  | .fileNotFound => .error .fileNotFoundError
  | .timedOut => .error .timeoutExpired
  | .ran r =>
    let output := combinedOutput r
    if r.returncode ≠ 0 then
      .error (.http (classifyFlashFailure output))
    else
      .ok (pyStrip output)

/-- firmware.py lines 154-190: POST /pybricks/install.  `filename?` is the
upload's filename field (None when absent), `content` the uploaded bytes,
`proc` the outcome of the pybricksdev flash subprocess.  A temporary .zip
is created by NamedTemporaryFile(delete=False) before the empty-body check,
but `temp_path` is assigned only after a successful write, so the finally
block (`if temp_path and os.path.exists(temp_path): os.remove(temp_path)`)
deletes nothing on the empty-body path and the staged file survives. -/
def install_pybricks_firmware (filename? : Option String) (content : List UInt8)
    (proc : ProcOutcome) : Except PyError FirmwareInstallResponse × Effects :=
  let filename := orDefaultName filename? "firmware.zip"
  if ¬ pyEndsWith (pyLower filename) ".zip" then
    (.error (.http ⟨400, "Firmware file must be a .zip archive"⟩), ⟨false, false⟩)
  else if content.isEmpty then
    (.error (.http ⟨400, "Uploaded firmware file is empty"⟩), ⟨false, true⟩)
  else
    let result : Except PyError FirmwareInstallResponse :=
      match _flash_firmware_zip proc with
      | .ok out => .ok ⟨true, "Pybricks firmware installed successfully.", pyStrip out⟩
      | .error .fileNotFoundError =>
        .error (.http ⟨501, "pybricksdev is not installed. Install with: pip install pybricksdev"⟩)
      | .error .timeoutExpired =>
        .error (.http ⟨408, "Firmware flashing timed out"⟩)
      | .error (.http e) => .error (.http e)
    (result, ⟨true, false⟩)

/-- firmware.py lines 250-277: POST /lego/restore/local, the same shape as
the install endpoint but for a .bin restore; it returns the helper's
response directly and converts the two raw process exceptions.  As with
install, an empty body leaves the staged temporary file behind. -/
def restore_lego_firmware_from_local_backup (filename? : Option String)
    (content : List UInt8) (proc : ProcOutcome) :
    Except PyError FirmwareInstallResponse × Effects :=
  let filename := orDefaultName filename? "firmware-backup.bin"
  if ¬ pyEndsWith (pyLower filename) ".bin" then
    (.error (.http ⟨400, "Backup file must be a .bin file"⟩), ⟨false, false⟩)
  else if content.isEmpty then
    (.error (.http ⟨400, "Uploaded backup file is empty"⟩), ⟨false, true⟩)
  else
    let result : Except PyError FirmwareInstallResponse :=
      match _restore_firmware_bin ("backup: " ++ filename) proc with
      | .ok resp => .ok resp
      | .error .fileNotFoundError =>
        .error (.http ⟨501, "pybricksdev is not installed. Install with: pip install pybricksdev"⟩)
      | .error .timeoutExpired =>
        .error (.http ⟨408, "Firmware restore timed out"⟩)
      | .error (.http e) => .error (.http e)
    (result, ⟨true, false⟩)

/-- Python `os.path.basename` (POSIX separator): the suffix after the last
slash. -/
def basename (p : String) : String :=
  ⟨(p.data.reverse.takeWhile (· ≠ '/')).reverse⟩

/-- firmware.py lines 280-295: POST /lego/restore/bundled.  `bundledExists`
is `os.path.exists(BUNDLED_LEGO_RESTORE_BIN_PATH)` and `bundledPath` that
path.  The endpoint has no try/except: any FileNotFoundError or
TimeoutExpired raised by the restore subprocess escapes unhandled. -/
def restore_lego_firmware_from_bundled_bin (bundledPath : String)
    (bundledExists : Bool) (proc : ProcOutcome) :
    Except PyError FirmwareInstallResponse × Effects :=
  if ¬ bundledExists then
    (.error (.http ⟨404,
      "Bundled restore BIN not found on backend. Expected: " ++ bundledPath⟩), ⟨false, false⟩)
  else
    (_restore_firmware_bin ("bundled BIN: " ++ basename bundledPath) proc, ⟨true, false⟩)

/-- One entry of the latest release's asset list, already projected to the
two fields the source reads: `str(asset.get("name") or "")` and
`str(asset.get("browser_download_url") or "")`. -/
structure ReleaseAsset where
  name : String
  url : String
deriving Repr, DecidableEq

/-- Outcome of a urllib fetch wrapped in `except Exception as exc`. -/
inductive Fetch (α : Type)
  | ok (a : α)
  | exc (msg : String)
deriving Repr, DecidableEq

/-- `\d+` for ASCII digits: consume one or more digits, return the rest. -/
def afterDigits1 (cs : List Char) : Option (List Char) :=
  match cs.takeWhile Char.isDigit with
  | [] => none
  | _ :: _ => some (cs.dropWhile Char.isDigit)

/-- Consume a literal, return the rest. -/
def afterLit (lit cs : List Char) : Option (List Char) :=
  if lit.isPrefixOf cs then some (cs.drop lit.length) else none

/-- firmware.py line 141: Python
`re.compile(r"^pybricks-primehub-v\d+\.\d+\.\d+\.zip$", re.IGNORECASE).match(name)`
as a boolean.  `re.match` anchors at the start; `$` matches at the end of
the string or just before one final newline; IGNORECASE is modelled by
ASCII lowering and `\d` by ASCII digits (the asset names involved are
ASCII). -/
def matchesPrimehubAssetName (name : String) : Bool :=
  let m := (afterLit "pybricks-primehub-v".data (name.data.map Char.toLower)).bind
    afterDigits1 |>.bind (afterLit ".".data) |>.bind afterDigits1
    |>.bind (afterLit ".".data) |>.bind afterDigits1 |>.bind (afterLit ".zip".data)
  match m with
  | some rest => rest.isEmpty || rest == ['\n']
  | none => false

/-- firmware.py lines 142-146: the loop body's guard on one asset. -/
def assetMatches (a : ReleaseAsset) : Bool :=
  matchesPrimehubAssetName a.name && a.url != ""

/-- firmware.py lines 142-146: the for-loop returning on the first matching
asset. -/
def findFirstAsset : List ReleaseAsset → Option (String × String)
  | [] => none
  | a :: rest => if assetMatches a then some (a.name, a.url) else findFirstAsset rest

/-- firmware.py lines 123-151: `_get_latest_stable_primehub_asset_url()`.
`fetchRes` is the outcome of the release-metadata query (the urlopen /
json.loads block wrapped in `except Exception`), already projected to the
asset list `data.get("assets") or []`. -/
def _get_latest_stable_primehub_asset_url (fetchRes : Fetch (List ReleaseAsset)) :
    Except PyError (String × String) :=
  match fetchRes with
  | .exc msg =>
    .error (.http ⟨502, "Failed to fetch latest Pybricks release metadata: " ++ msg⟩)
  | .ok assets =>
    match findFirstAsset assets with
    | some nu => .ok nu
    | none =>
      .error (.http ⟨404, "Could not find stable PrimeHub firmware asset in latest release"⟩)

/-- firmware.py lines 193-236: POST /pybricks/install/primehub/stable.
`downloadRes` is the asset download's outcome (its urlopen wrapped in
`except Exception`).  The temporary .zip is written only after the bytes
are checked non-empty, so every path through this endpoint removes it. -/
def install_latest_stable_primehub_firmware (fetchRes : Fetch (List ReleaseAsset))
    (downloadRes : Fetch (List UInt8)) (proc : ProcOutcome) :
    Except PyError FirmwareInstallResponse × Effects :=
  match _get_latest_stable_primehub_asset_url fetchRes with
  | .error e => (.error e, ⟨false, false⟩)
  | .ok (asset_name, _url) =>
    match downloadRes with
    | .exc msg =>
      (.error (.http ⟨502, "Failed to download firmware archive: " ++ msg⟩), ⟨false, false⟩)
    | .ok firmware_bytes =>
      if firmware_bytes.isEmpty then
        (.error (.http ⟨502, "Downloaded firmware archive is empty"⟩), ⟨false, false⟩)
      else
        let result : Except PyError FirmwareInstallResponse :=
          match _flash_firmware_zip proc with
          | .ok out =>
            .ok ⟨true, "Installed latest stable PrimeHub firmware: " ++ asset_name, out⟩
          | .error .fileNotFoundError =>
            .error (.http ⟨501, "pybricksdev is not installed. Install with: pip install pybricksdev"⟩)
          | .error .timeoutExpired =>
            .error (.http ⟨408, "Firmware flashing timed out"⟩)
          | .error (.http e) => .error (.http e)
        (result, ⟨true, false⟩)

/-- Outcome of CPython's built-in `compile(source, ..., "exec")` on the
request's source text: success, or a SyntaxError carrying `msg`, `lineno`
and `offset` (both optional in CPython's exception object; the parser sets
`lineno` to the 1-indexed error line). -/
inductive ParseOutcome
  | ok
  | err (msg : String) (lineno : Option Nat) (offset : Option Nat)
deriving Repr, DecidableEq

/-- Python response model: SyntaxCheckResponse. -/
structure SyntaxCheckResponse where
  valid : Bool
  error : String := ""
  line : Nat := 0
  column : Nat := 0
deriving Repr, DecidableEq

/-- compiler.py lines 37-49: POST /check.  The only failure the parser
raises is converted in place to a response value (`e.lineno or 0`,
`e.offset or 0`), so the endpoint is a total function to a response. -/
def check_syntax (parse : ParseOutcome) : SyntaxCheckResponse :=
  match parse with
  | .ok => { valid := true }
  | .err msg lineno offset =>
    { valid := false, error := msg, line := lineno.getD 0, column := offset.getD 0 }

/-- Python response model: CompileResponse. -/
structure CompileResponse where
  success : Bool
  message : String
  size : Nat := 0
deriving Repr, DecidableEq

/-- Python f-string rendering of `e.lineno`, which prints `None` when the
attribute is absent. -/
def pyOptNat (n : Option Nat) : String :=
  match n with
  | some k => toString k
  | none => "None"

/-- compiler.py lines 52-114: POST /compile.  `source_syntax` is the
outcome of the in-process `compile()` pre-check (line 61), `proc` of the
mpy-cross subprocess, and `outputExists` / `outputSize` of the
os.path.exists / os.path.getsize probes on the produced artifact.  The
TemporaryDirectory context manager removes the workspace on every exit
path, so no path leaks a temporary file. -/
def compile_program (parse : ParseOutcome) (proc : ProcOutcome)
    (outputExists : Bool) (outputSize : Nat) : Except PyError CompileResponse × Effects :=
  match parse with
  | .err msg lineno _ =>
    (.error (.http ⟨400, "Syntax error at line " ++ pyOptNat lineno ++ ": " ++ msg⟩),
      ⟨false, false⟩)
  | .ok =>
    match proc with
    | .fileNotFound =>
      (.ok ⟨true, "Syntax valid (mpy-cross not available for bytecode compilation)", 0⟩,
        ⟨true, false⟩)
    | .timedOut =>
      (.error (.http ⟨408, "Compilation timed out"⟩), ⟨true, false⟩)
    | .ran r =>
      if r.returncode ≠ 0 then
        (.error (.http ⟨400, "Compilation failed: " ++ r.stderr⟩), ⟨true, false⟩)
      else if outputExists then
        (.ok ⟨true, "Compiled successfully (" ++ toString outputSize ++ " bytes)", outputSize⟩,
          ⟨true, false⟩)
      else
        (.ok ⟨true, "Compiled successfully (size unknown)", 0⟩, ⟨true, false⟩)

/-- The download endpoint's success value: the artifact bytes and the
Content-Disposition header naming the output artifact. -/
structure FileDownloadResponse where
  content : List UInt8
  contentDisposition : String
deriving Repr, DecidableEq

/-- compiler.py lines 117-158: POST /compile/download.  `source_syntax` is
the parse outcome of the request's source text; the body never consults it
(this endpoint performs no syntax pre-check).  `outputRead` is the content
of the produced .mpy artifact, or none when opening it raises
FileNotFoundError (caught by the same handler as a missing executable).
There is no TimeoutExpired handler: a subprocess timeout escapes
unhandled.  The TemporaryDirectory context manager still removes the
workspace on every exit path. -/
def compile_and_download (filename : String) (_parse : ParseOutcome)
    (proc : ProcOutcome) (outputRead : Option (List UInt8)) :
    Except PyError FileDownloadResponse × Effects :=
  match proc with
  | .fileNotFound =>
    (.error (.http ⟨501, "mpy-cross is not installed. Install with: pip install mpy-cross"⟩),
      ⟨true, false⟩)
  | .timedOut =>
    (.error .timeoutExpired, ⟨true, false⟩)
  | .ran r =>
    if r.returncode ≠ 0 then
      (.error (.http ⟨400, "Compilation failed: " ++ r.stderr⟩), ⟨true, false⟩)
    else
      match outputRead with
      | none =>
        (.error (.http ⟨501, "mpy-cross is not installed. Install with: pip install mpy-cross"⟩),
          ⟨true, false⟩)
      | some content =>
        (.ok ⟨content,
          "attachment; filename=\"" ++ pyReplace filename ".py" ".mpy" ++ "\""⟩,
          ⟨true, false⟩)

/-- One ordered rule of the spec's substring classification: a predicate on
the combined process output and the structured failure it produces. -/
structure ClassifierRule where
  applies : String → Bool
  result : HTTPException

/-- First-match-wins application of an ordered rule list, with a fallback
applied when no rule matches. -/
def applyFirstMatch (rules : List ClassifierRule) (fallback : String → HTTPException)
    (output : String) : HTTPException :=
  match rules with
  | [] => fallback output
  | rule :: rest =>
    if rule.applies output then rule.result else applyFirstMatch rest fallback output

/-- The restore classification's fallback (spec rule 5): the raw combined
output, stripped, never swallowed. -/
def restoreUnknownFailure (output : String) : HTTPException :=
  ⟨500, "pybricksdev restore failed. "
    ++ (if pyStrip output = "" then "Unknown error" else pyStrip output)⟩

/-- The spec's fixed ordered rule list for restore failure classification
(rules 1-4, most specific to most generic; rule 5 is the fallback
`restoreUnknownFailure`). -/
def restoreRules : List ClassifierRule :=
  [⟨fun o => pyContains o "No LEGO DFU USB device found"
      || pyContains o "RuntimeError: No LEGO DFU USB device found",
    ⟨400, restoreNoLegoDfuDetail⟩⟩,
   ⟨fun o => pyContains o "No working DFU found." || pyContains o "dfu-util",
    ⟨501, restorePrereqDetail⟩⟩,
   ⟨fun o => pyContains o "No DFU", ⟨400, restoreGenericNoDfuDetail⟩⟩,
   ⟨fun o => pyContains o "Permission to access USB device denied",
    ⟨403, restorePermissionDetail⟩⟩]

theorem findFirstAsset_eq_find? (assets : List ReleaseAsset) :
    findFirstAsset assets = (assets.find? assetMatches).map (fun a => (a.name, a.url)) := by
  induction assets with
  | nil => rfl
  | cons a rest ih =>
    by_cases h : assetMatches a <;> simp [findFirstAsset, List.find?_cons, h, ih]

/-- C1: the restore failure classification is exactly first-match-wins over
the fixed ordered rule list (specific no-LEGO-DFU-device, then missing
dfu-util prerequisites, then generic "No DFU", then permission denied, then
the unknown fallback); in particular an output carrying both a
permission-denied signature and a generic "No DFU" fragment classifies as
DeviceNotFound, because the generic no-DFU rule precedes the permission
rule. -/
theorem restore_classification_first_match_wins :
    (∀ output, classifyRestoreFailure output
        = applyFirstMatch restoreRules restoreUnknownFailure output)
    ∧ classifyRestoreFailure "No DFU\nPermission to access USB device denied"
        = ⟨400, restoreGenericNoDfuDetail⟩
    ∧ dfuCategoryOf
        (classifyRestoreFailure "No DFU\nPermission to access USB device denied")
        = .DeviceNotFound :=
  ⟨fun _ => rfl, rfl, rfl⟩

/-- C2: the code leaks the staged temporary file on the empty-upload path
of both upload endpoints: NamedTemporaryFile(delete=False) creates the file
before the empty-body check raises, but temp_path is assigned only after a
successful write, so the finally block deletes nothing there.  The claim
says the temporary file no longer exists after every outcome. -/
theorem empty_upload_leaks_staged_temp_file :
    install_pybricks_firmware (some "firmware.zip") [] (.ran ⟨0, "", ""⟩)
      = (.error (.http ⟨400, "Uploaded firmware file is empty"⟩), ⟨false, true⟩)
    ∧ restore_lego_firmware_from_local_backup (some "backup.bin") [] (.ran ⟨0, "", ""⟩)
      = (.error (.http ⟨400, "Uploaded backup file is empty"⟩), ⟨false, true⟩) :=
  ⟨rfl, rfl⟩

/-- C3: when the cross-compiler executable is missing
(FileNotFoundError from subprocess.run), the size-only compile endpoint on
valid source still reports success with the no-bytecode message, while the
download variant fails with the 501 tool-not-installed error. -/
theorem missing_cross_compiler_soft_degrade_asymmetry :
    ∀ (outputExists : Bool) (outputSize : Nat) (fname : String)
      (p : ParseOutcome) (outputRead : Option (List UInt8)),
      compile_program .ok .fileNotFound outputExists outputSize
        = (.ok ⟨true, "Syntax valid (mpy-cross not available for bytecode compilation)", 0⟩,
          ⟨true, false⟩)
      ∧ compile_and_download fname p .fileNotFound outputRead
        = (.error (.http
            ⟨501, "mpy-cross is not installed. Install with: pip install mpy-cross"⟩),
          ⟨true, false⟩) :=
  fun _ _ _ _ _ => ⟨rfl, rfl⟩

/-- C4 counterexample: for the bundled-restore endpoint (which has no
try/except at all) and for the download-compile endpoint (which catches
only FileNotFoundError), a subprocess timeout escapes as the raw unhandled
TimeoutExpired exception instead of a structured 408 failure, refuting the
claim that every compile/install/restore operation reports timeout as a
structured Timeout failure. -/
theorem timeout_escapes_unhandled_counterexample :
    restore_lego_firmware_from_bundled_bin
        "/backend/firmware/prime-v1.3.00.0000-e8c274a.15bc498f956dc12eda9f.bin" true .timedOut
      = (.error .timeoutExpired, ⟨true, false⟩)
    ∧ isHttpStatus (restore_lego_firmware_from_bundled_bin
        "/backend/firmware/prime-v1.3.00.0000-e8c274a.15bc498f956dc12eda9f.bin"
        true .timedOut).1 408 = false
    ∧ compile_and_download "main.py" .ok .timedOut none = (.error .timeoutExpired, ⟨true, false⟩)
    ∧ isHttpStatus (compile_and_download "main.py" .ok .timedOut none).1 408 = false :=
  ⟨rfl, rfl, rfl, rfl⟩

/-- C4 amended: the size-only compile, the two upload endpoints and the
remote-latest install convert a subprocess TimeoutExpired into a distinct
structured 408 failure, never merged with tool-reported errors; the
download-compile and bundled-restore endpoints instead let the raw
TimeoutExpired exception propagate unhandled. -/
theorem timeout_reported_as_structured_408 :
    ∀ (outputExists : Bool) (outputSize : Nat)
      (c : List UInt8) (assets : List ReleaseAsset) (nu : String × String)
      (d : List UInt8) (fname : String) (p : ParseOutcome)
      (outputRead : Option (List UInt8)) (bundledPath : String),
      compile_program .ok .timedOut outputExists outputSize
        = (.error (.http ⟨408, "Compilation timed out"⟩), ⟨true, false⟩)
      ∧ (c.isEmpty = false →
          install_pybricks_firmware none c .timedOut
            = (.error (.http ⟨408, "Firmware flashing timed out"⟩), ⟨true, false⟩))
      ∧ (c.isEmpty = false →
          restore_lego_firmware_from_local_backup none c .timedOut
            = (.error (.http ⟨408, "Firmware restore timed out"⟩), ⟨true, false⟩))
      ∧ (_get_latest_stable_primehub_asset_url (.ok assets) = .ok nu →
          d.isEmpty = false →
          install_latest_stable_primehub_firmware (.ok assets) (.ok d) .timedOut
            = (.error (.http ⟨408, "Firmware flashing timed out"⟩), ⟨true, false⟩))
      ∧ compile_and_download fname p .timedOut outputRead
        = (.error .timeoutExpired, ⟨true, false⟩)
      ∧ restore_lego_firmware_from_bundled_bin bundledPath true .timedOut
        = (.error .timeoutExpired, ⟨true, false⟩) := by
  intro outputExists outputSize c assets nu d fname p outputRead bundledPath
  refine ⟨rfl, ?_, ?_, ?_, rfl, rfl⟩
  · intro h
    cases c with
    | nil => simp at h
    | cons x xs => rfl
  · intro h
    cases c with
    | nil => simp at h
    | cons x xs => rfl
  · intro hres hd
    cases d with
    | nil => simp at hd
    | cons x xs =>
      simp only [install_latest_stable_primehub_firmware, hres]
      rfl

/-- C4 amended, witness at concrete inputs. -/
theorem timeout_reported_as_structured_408_witness :
    install_pybricks_firmware none [1] .timedOut
      = (.error (.http ⟨408, "Firmware flashing timed out"⟩), ⟨true, false⟩)
    ∧ restore_lego_firmware_from_local_backup none [1] .timedOut
      = (.error (.http ⟨408, "Firmware restore timed out"⟩), ⟨true, false⟩)
    ∧ install_latest_stable_primehub_firmware
        (.ok [⟨"pybricks-primehub-v3.6.0.zip", "u"⟩]) (.ok [1]) .timedOut
      = (.error (.http ⟨408, "Firmware flashing timed out"⟩), ⟨true, false⟩) := by
  obtain ⟨-, h2, h3, h4, -, -⟩ :=
    timeout_reported_as_structured_408 true 0 [1]
      [⟨"pybricks-primehub-v3.6.0.zip", "u"⟩] ("pybricks-primehub-v3.6.0.zip", "u")
      [1] "main.py" .ok none "/p"
  exact ⟨h2 rfl, h3 rfl, h4 rfl rfl⟩

/-- C5: an empty upload body makes both upload endpoints fail with a 400
validation error, and subprocess.run is never reached. -/
theorem empty_upload_validation_no_subprocess :
    ∀ (filename? : Option String) (proc : ProcOutcome),
      isHttpStatus (install_pybricks_firmware filename? [] proc).1 400 = true
      ∧ (install_pybricks_firmware filename? [] proc).2.procInvoked = false
      ∧ isHttpStatus (restore_lego_firmware_from_local_backup filename? [] proc).1 400 = true
      ∧ (restore_lego_firmware_from_local_backup filename? [] proc).2.procInvoked = false := by
  intro filename? proc
  refine ⟨?_, ?_, ?_, ?_⟩ <;>
    simp only [install_pybricks_firmware, restore_lego_firmware_from_local_backup] <;>
    split <;> rfl

/-- C6: the syntax-check endpoint is a total function to a result value
(the parser's only failure, SyntaxError, is converted in place): on valid
source it returns valid=true, and on a SyntaxError whose lineno is the
parser's 1-indexed error line it returns valid=false carrying exactly that
line. -/
theorem check_syntax_total_result_mapping :
    ∀ (msg : String) (n : Nat) (offset : Option Nat),
      check_syntax .ok = ⟨true, "", 0, 0⟩
      ∧ check_syntax (.err msg (some n) offset) = ⟨false, msg, n, offset.getD 0⟩ :=
  fun _ _ _ => ⟨rfl, rfl⟩

/-- C7: release resolution is first-match over the latest release's assets
against the fixed case-insensitive pybricks-primehub-vX.Y.Z.zip pattern,
404-NotFound when no asset matches, 502 when the metadata query itself
fails, and an empty downloaded body is a 502 transport failure, not a valid
zero-length artifact. -/
theorem release_asset_resolution_and_empty_download :
    (∀ msg, _get_latest_stable_primehub_asset_url (.exc msg)
        = .error (.http
          ⟨502, "Failed to fetch latest Pybricks release metadata: " ++ msg⟩))
    ∧ (∀ assets, _get_latest_stable_primehub_asset_url (.ok assets)
        = match assets.find? assetMatches with
          | some a => .ok (a.name, a.url)
          | none => .error (.http
              ⟨404, "Could not find stable PrimeHub firmware asset in latest release"⟩))
    ∧ (∀ assets nu proc, _get_latest_stable_primehub_asset_url (.ok assets) = .ok nu →
        install_latest_stable_primehub_firmware (.ok assets) (.ok []) proc
          = (.error (.http ⟨502, "Downloaded firmware archive is empty"⟩), ⟨false, false⟩))
    ∧ matchesPrimehubAssetName "pybricks-primehub-v3.6.0.zip" = true
    ∧ matchesPrimehubAssetName "PYBRICKS-PRIMEHUB-V3.6.0.ZIP" = true
    ∧ matchesPrimehubAssetName "pybricks-primehub-v3.6.0-beta.1.zip" = false := by
  refine ⟨fun msg => rfl, fun assets => ?_, fun assets nu proc hres => ?_, rfl, rfl, rfl⟩
  · simp only [_get_latest_stable_primehub_asset_url, findFirstAsset_eq_find?]
    cases assets.find? assetMatches <;> rfl
  · simp only [install_latest_stable_primehub_firmware, hres]
    rfl

/-- C7, witness at a concrete asset list with a matching asset and an empty
download body. -/
theorem release_asset_resolution_witness :
    install_latest_stable_primehub_firmware
        (.ok [⟨"other.txt", "u0"⟩, ⟨"pybricks-primehub-v3.6.0.zip", "u1"⟩])
        (.ok []) (.ran ⟨0, "", ""⟩)
      = (.error (.http ⟨502, "Downloaded firmware archive is empty"⟩), ⟨false, false⟩) :=
  release_asset_resolution_and_empty_download.2.2.1
    [⟨"other.txt", "u0"⟩, ⟨"pybricks-primehub-v3.6.0.zip", "u1"⟩]
    ("pybricks-primehub-v3.6.0.zip", "u1") (.ran ⟨0, "", ""⟩) rfl

/-- C8 counterexample: the download-compile endpoint performs no syntax
pre-check: on a source whose parse outcome is a line-1 SyntaxError it still
reaches subprocess.run, and the failure it reports is the external tool's
own diagnostic, not the structured syntax diagnostic, refuting the claim
that both compile variants fail fast before the process is spawned. -/
theorem download_variant_spawns_on_invalid_source :
    compile_and_download "main.py" (.err "invalid syntax" (some 1) (some 8))
        (.ran ⟨1, "", "boom"⟩) none
      = (.error (.http ⟨400, "Compilation failed: boom"⟩), ⟨true, false⟩)
    ∧ (compile_and_download "main.py" (.err "invalid syntax" (some 1) (some 8))
        (.ran ⟨1, "", "boom"⟩) none).2.procInvoked = true :=
  ⟨rfl, rfl⟩

/-- C8 amended: only the size-only compile endpoint re-validates syntax and
fails fast with the structured syntax diagnostic before subprocess.run; the
download variant never consults the parse outcome and always reaches
subprocess.run. -/
theorem syntax_precheck_only_in_size_variant :
    ∀ (msg : String) (lineno offset : Option Nat) (proc : ProcOutcome)
      (outputExists : Bool) (outputSize : Nat) (fname : String) (p : ParseOutcome)
      (outputRead : Option (List UInt8)),
      compile_program (.err msg lineno offset) proc outputExists outputSize
        = (.error (.http ⟨400, "Syntax error at line " ++ pyOptNat lineno ++ ": " ++ msg⟩),
          ⟨false, false⟩)
      ∧ (compile_and_download fname p proc outputRead).2.procInvoked = true := by
  intro msg lineno offset proc outputExists outputSize fname p outputRead
  refine ⟨rfl, ?_⟩
  cases proc with
  | fileNotFound => rfl
  | timedOut => rfl
  | ran r =>
    by_cases h : r.returncode ≠ 0
    · simp [compile_and_download, h]
    · cases outputRead <;> simp [compile_and_download, h]

/-- C9 counterexample: a failed install (flash) whose combined output holds
only the permission-denied signature classifies as the 500 unknown
fallback, not PermissionDenied: the flash classifier has no permission
rule, refuting the claim that the five-rule algorithm applies to the
install operation. -/
theorem flash_permission_output_not_permission_denied :
    install_pybricks_firmware (some "firmware.zip") [1]
        (.ran ⟨1, "Permission to access USB device denied", ""⟩)
      = (.error (.http
          ⟨500, "pybricksdev flash failed. Permission to access USB device denied"⟩),
        ⟨true, false⟩)
    ∧ dfuCategoryOf (classifyFlashFailure "Permission to access USB device denied")
        = .UnknownFailure :=
  ⟨rfl, rfl⟩

/-- C9 amended: the permission-denied rule lives only in the restore
classification: the flash (install) classifier only ever reports 400
DeviceNotFound or the 500 unknown fallback and never PermissionDenied,
while a failed restore whose output holds the permission-denied signature
and no earlier-matching signature classifies as 403 PermissionDenied with
the udev-rule command sequence in its message. -/
theorem permission_rule_restore_only :
    (∀ output, (classifyFlashFailure output).status_code = 400
        ∨ (classifyFlashFailure output).status_code = 500)
    ∧ (∀ output, dfuCategoryOf (classifyFlashFailure output) ≠ .PermissionDenied)
    ∧ (∀ output,
        pyContains output "Permission to access USB device denied" = true →
        pyContains output "No LEGO DFU USB device found" = false →
        pyContains output "RuntimeError: No LEGO DFU USB device found" = false →
        pyContains output "No working DFU found." = false →
        pyContains output "dfu-util" = false →
        pyContains output "No DFU" = false →
        classifyRestoreFailure output = ⟨403, restorePermissionDetail⟩
        ∧ dfuCategoryOf (classifyRestoreFailure output) = .PermissionDenied
        ∧ pyContains restorePermissionDetail
            "pybricksdev udev | sudo tee /etc/udev/rules.d/99-pybricksdev.rules" = true) := by
  refine ⟨fun output => ?_, fun output => ?_, fun output h1 h2 h3 h4 h5 h6 => ?_⟩
  · simp only [classifyFlashFailure]
    split
    · exact Or.inl rfl
    · exact Or.inr rfl
  · simp only [classifyFlashFailure, dfuCategoryOf]
    split <;> simp
  · have hcls : classifyRestoreFailure output = ⟨403, restorePermissionDetail⟩ := by
      simp [classifyRestoreFailure, h1, h2, h3, h4, h5, h6]
    exact ⟨hcls, by rw [hcls]; rfl, rfl⟩

/-- C9 amended, witness at a concrete permission-denied restore output. -/
theorem permission_rule_restore_only_witness :
    classifyRestoreFailure "Permission to access USB device denied"
        = ⟨403, restorePermissionDetail⟩
    ∧ dfuCategoryOf (classifyRestoreFailure "Permission to access USB device denied")
        = .PermissionDenied
    ∧ pyContains restorePermissionDetail
        "pybricksdev udev | sudo tee /etc/udev/rules.d/99-pybricksdev.rules" = true :=
  permission_rule_restore_only.2.2 "Permission to access USB device denied"
    rfl rfl rfl rfl rfl rfl

/-- C10: an upload with no filename is not rejected: the install path
substitutes "firmware.zip" and the restore path "firmware-backup.bin",
both of which pass their extension checks, so a nameless non-empty upload
proceeds to staging and reaches the flashing subprocess. -/
theorem nameless_upload_uses_default_names :
    ∀ (c : List UInt8) (proc : ProcOutcome),
      c.isEmpty = false →
      orDefaultName none "firmware.zip" = "firmware.zip"
      ∧ pyEndsWith (pyLower (orDefaultName none "firmware.zip")) ".zip" = true
      ∧ orDefaultName none "firmware-backup.bin" = "firmware-backup.bin"
      ∧ pyEndsWith (pyLower (orDefaultName none "firmware-backup.bin")) ".bin" = true
      ∧ (install_pybricks_firmware none c proc).2.procInvoked = true
      ∧ (restore_lego_firmware_from_local_backup none c proc).2.procInvoked = true := by
  intro c proc h
  cases c with
  | nil => simp at h
  | cons x xs => exact ⟨rfl, rfl, rfl, rfl, rfl, rfl⟩

/-- C10, witness at a concrete nameless one-byte upload. -/
theorem nameless_upload_uses_default_names_witness :
    (install_pybricks_firmware none [1] (.ran ⟨0, "", ""⟩)).2.procInvoked = true
    ∧ (restore_lego_firmware_from_local_backup none [1] (.ran ⟨0, "", ""⟩)).2.procInvoked
        = true := by
  obtain ⟨-, -, -, -, h5, h6⟩ :=
    nameless_upload_uses_default_names [1] (.ran ⟨0, "", ""⟩) rfl
  exact ⟨h5, h6⟩

end Portal
